import Mathlib

/-!
Shallow embedding of the Court-Data Fetcher mini dashboard in Lean 4,
covering the pieces exercised by the specification claims:

* `utils/court_scraper.py` — the HTML extractor (`_extract_case_data`),
  the scrape orchestrator (`search_case`) and driver cleanup
  (`_cleanup_driver`).
* `utils/captcha_solver.py` — the CAPTCHA format validator
  (`validate_captcha`).
* `utils/pdf_handler.py` — filename generation (`_generate_filename`)
  and PDF download (`download_pdf`).
* `app.py` — the `POST /search` handler (`search_case` route) and the
  `GET /api/years` endpoint (`get_years`).

External effects (Selenium, HTTP, the filesystem, BeautifulSoup's
parser, MD5 and percent-decoding) are represented by explicit
environment parameters or state values; the control flow and data
transformations of the Python source are translated directly.
-/

/-! ## DOM model and the HTML extractor (`_extract_case_data`) -/

/-- A parsed HTML DOM node, the shape `BeautifulSoup` hands back to
`_extract_case_data`: either a text node or an element with a tag, a
list of CSS classes, further attributes and children. -/
inductive Node where
  | text (s : String)
  | elem (tag : String) (classes : List String) (attrs : List (String × String))
      (children : List Node)

/-- Predicate matching `soup.find(tag, {'class': cls})`-style lookups:
an element node with the given tag whose class list contains `cls`. -/
def isElemWithClass (tag cls : String) : Node → Bool
  | .text _ => false
  | .elem t cs _ _ => t == tag && cs.contains cls

mutual

/-- `element.find(...)`: first descendant (in document order) of a node
satisfying `p`; the node itself is not a candidate, matching
BeautifulSoup's `find` on an element. -/
def findFirst (p : Node → Bool) : Node → Option Node
  | .text _ => none
  | .elem _ _ _ children => findFirstList p children
termination_by structural n => n

/-- First node in document order, among the listed nodes and their
descendants, satisfying `p`. -/
def findFirstList (p : Node → Bool) : List Node → Option Node
  | [] => none
  | c :: cs =>
    if p c then some c
    else
      match findFirst p c with
      | some r => some r
      | none => findFirstList p cs
termination_by structural l => l

end

mutual

/-- `element.find_all(...)`: all descendants of a node satisfying `p`,
in document order. -/
def findAllNode (p : Node → Bool) : Node → List Node
  | .text _ => []
  | .elem _ _ _ children => findAllList p children
termination_by structural n => n

/-- All nodes in document order, among the listed nodes and their
descendants, satisfying `p`. -/
def findAllList (p : Node → Bool) : List Node → List Node
  | [] => []
  | c :: cs => (if p c then [c] else []) ++ findAllNode p c ++ findAllList p cs
termination_by structural l => l

end

mutual

/-- `element.text`: concatenation of all text content beneath a node. -/
def nodeText : Node → String
  | .text s => s
  | .elem _ _ _ children => nodeTextList children
termination_by structural n => n

/-- Concatenated text content of a list of nodes. -/
def nodeTextList : List Node → String
  | [] => ""
  | c :: cs => nodeText c ++ nodeTextList cs
termination_by structural l => l

end

/-- `element.get(key)`: attribute lookup returning `none` when the
attribute is absent. -/
def getAttr (key : String) : Node → Option String
  | .text _ => none
  | .elem _ _ attrs _ => (attrs.find? (fun kv => kv.1 == key)).map (fun kv => kv.2)

/-- Python's `str.strip()`: remove leading and trailing whitespace. -/
def pyStrip (s : String) : String :=
  ⟨((s.data.dropWhile Char.isWhitespace).reverse.dropWhile Char.isWhitespace).reverse⟩

/-- One entry of `case_data['parties']`: the dict built for a party
element that has both the type and the name sub-span. -/
structure Party where
  type : String
  name : String
deriving DecidableEq

/-- One entry of `case_data['orders']`: date, title and an optional link. -/
structure CourtOrder where
  date : String
  title : String
  url : Option String
deriving DecidableEq

/-- The `case_data` dict assembled by `_extract_case_data`. -/
structure CaseData where
  parties : List Party
  filing_date : Option String
  next_hearing_date : Option String
  orders : List CourtOrder
deriving DecidableEq

/-- Marker for the parties block: `div.parties-info`. -/
def partiesMarker : Node → Bool := isElemWithClass "div" "parties-info"

/-- Marker for the dates block: `div.case-dates`. -/
def datesMarker : Node → Bool := isElemWithClass "div" "case-dates"

/-- Marker for the orders block: `div.orders-section`. -/
def ordersMarker : Node → Bool := isElemWithClass "div" "orders-section"

/-- Body of `_extract_case_data` after a successful parse: starts from
the default dict and fills each of the three regions independently,
skipping party entries lacking a type or name sub-span and order
entries lacking a date or title, with the order link optional. -/
def extractFromDom (dom : Node) : CaseData :=
  let parties :=
    match findFirst partiesMarker dom with
    | none => []
    | some sec =>
      (findAllNode (isElemWithClass "div" "party") sec).filterMap (fun party =>
        match findFirst (isElemWithClass "span" "party-type") party,
              findFirst (isElemWithClass "span" "party-name") party with
        | some pt, some pn =>
          some { type := pyStrip (nodeText pt), name := pyStrip (nodeText pn) }
        | _, _ => none)
  let dates :=
    match findFirst datesMarker dom with
    | none => (none, none)
    | some sec =>
      ((findFirst (isElemWithClass "span" "filing-date") sec).map
          (fun e => pyStrip (nodeText e)),
       (findFirst (isElemWithClass "span" "next-hearing") sec).map
          (fun e => pyStrip (nodeText e)))
  let orders :=
    match findFirst ordersMarker dom with
    | none => []
    | some sec =>
      (findAllNode (isElemWithClass "div" "order-item") sec).filterMap (fun order =>
        match findFirst (isElemWithClass "span" "order-date") order,
              findFirst (isElemWithClass "span" "order-title") order with
        | some od, some ot =>
          some { date := pyStrip (nodeText od), title := pyStrip (nodeText ot),
                 url := (findFirst (isElemWithClass "a" "order-link") order).bind
                          (getAttr "href") }
        | _, _ => none)
  { parties := parties, filing_date := dates.1, next_hearing_date := dates.2,
    orders := orders }

/-- `_extract_case_data(page_source)`: parse the markup (the
`BeautifulSoup` call, whose possible failure the surrounding
`try/except` turns into `None`), then assemble the case-data record.
The parser is passed in as the environment's parse function. -/
def extract_case_data (parse : String → Option Node) (page_source : String) :
    Option CaseData :=
  match parse page_source with
  | none => none
  | some dom => some (extractFromDom dom)

/-! ## CAPTCHA format validation (`CaptchaSolver.validate_captcha`) -/

/-- Python's `str.isalnum`: true iff the string is non-empty and every
character is alphanumeric. -/
def py_isalnum (s : String) : Bool :=
  !s.data.isEmpty && s.data.all Char.isAlphanum

/-- `validate_captcha(captcha_text)`: `None` and the empty string are
falsy and rejected; otherwise the text must be alphanumeric with length
between 4 and 8 inclusive. -/
def validate_captcha (captcha_text : Option String) : Bool :=
  match captcha_text with
  | none => false
  | some s =>
    if s = "" then false
    else if !py_isalnum s || s.length < 4 || s.length > 8 then false
    else true

/-! ## Scrape orchestrator (`DelhiHighCourtScraper.search_case`) -/

/-- The individual actions `search_case` performs, in source order,
plus the `finally`-block teardown. -/
inductive Step where
  | setup
  | navigate
  | waitForm
  | selectCaseType
  | fillCaseNumber
  | fillFilingYear
  | findCaptcha
  | solveCaptcha
  | manualWait
  | submitClick
  | waitResults
  | checkNoResults
  | extract
  | cleanup
deriving DecidableEq

/-- Environment outcomes of the external Selenium interactions inside
one `search_case` call: whether each browser action succeeds, whether
the CAPTCHA was solved automatically, whether the bounded result wait
times out, and whether the `no-results` marker is present. -/
structure ScrapeFlags where
  setup_ok : Bool
  navigate_ok : Bool
  waitForm_ok : Bool
  selectCaseType_ok : Bool
  fillCaseNumber_ok : Bool
  fillFilingYear_ok : Bool
  findCaptcha_ok : Bool
  captcha_solved : Bool
  submit_ok : Bool
  waitResults_ok : Bool
  no_results_present : Bool
deriving DecidableEq

/-- How the `try`-body of `search_case` exits before the extraction
result is consulted: a step failure, the `no-results` marker, or
reaching the extraction step. -/
inductive ExitKind where
  | failed
  | notFound
  | extracting
deriving DecidableEq

/-- The control flow of `search_case` up to the call of
`_extract_case_data`, recording the steps attempted in order.
A raised exception at any Selenium step is caught by the surrounding
`try/except` (modelled by the corresponding flag being `false`);
the inner `TimeoutException` handler likewise returns `None`;
a CAPTCHA that was not solved automatically adds the fixed manual
grace-period sleep before submitting. -/
def searchFlow (f : ScrapeFlags) : ExitKind × List Step :=
  if f.setup_ok = false then (.failed, [.setup]) else
  if f.navigate_ok = false then (.failed, [.setup, .navigate]) else
  if f.waitForm_ok = false then (.failed, [.setup, .navigate, .waitForm]) else
  if f.selectCaseType_ok = false then
    (.failed, [.setup, .navigate, .waitForm, .selectCaseType]) else
  if f.fillCaseNumber_ok = false then
    (.failed, [.setup, .navigate, .waitForm, .selectCaseType, .fillCaseNumber]) else
  if f.fillFilingYear_ok = false then
    (.failed, [.setup, .navigate, .waitForm, .selectCaseType, .fillCaseNumber,
      .fillFilingYear]) else
  if f.findCaptcha_ok = false then
    (.failed, [.setup, .navigate, .waitForm, .selectCaseType, .fillCaseNumber,
      .fillFilingYear, .findCaptcha]) else
  let pre : List Step :=
    [.setup, .navigate, .waitForm, .selectCaseType, .fillCaseNumber,
     .fillFilingYear, .findCaptcha, .solveCaptcha]
  let pre := if f.captcha_solved then pre else pre ++ [.manualWait]
  if f.submit_ok = false then (.failed, pre ++ [.submitClick]) else
  if f.waitResults_ok = false then (.failed, pre ++ [.submitClick, .waitResults]) else
  if f.no_results_present then
    (.notFound, pre ++ [.submitClick, .waitResults, .checkNoResults])
  else
    (.extracting, pre ++ [.submitClick, .waitResults, .checkNoResults, .extract])

/-- Everything one `search_case` call observes from the outside world:
the step outcomes plus the page markup and the parser applied to it. -/
structure ScrapeEnv where
  flags : ScrapeFlags
  parse : String → Option Node
  page_source : String

/-- `DelhiHighCourtScraper.search_case(case_type, case_number,
filing_year)`: runs the step sequence; every failure path and the
`no-results` path return `None`; on the extraction path the result of
`_extract_case_data` is returned (which is itself `None` when the
markup does not parse).  The `finally` block always appends the driver
cleanup. -/
def search_case (env : ScrapeEnv) : Option CaseData × List Step :=
  let flow := searchFlow env.flags
  let result :=
    match flow.1 with
    | .extracting => extract_case_data env.parse env.page_source
    | _ => none
  (result, flow.2 ++ [Step.cleanup])

/-- A live WebDriver handle; `quit_raises` records whether its `quit()`
call raises (for instance because the browser already exited). -/
structure DriverHandle where
  quit_raises : Bool

/-- Outcome of a Python call: normal return or a raised exception. -/
inductive PyResult (α : Type) where
  | ok (val : α)
  | exn (msg : String)
deriving DecidableEq

/-- `driver.quit()`. -/
def driver_quit (d : DriverHandle) : PyResult Unit :=
  if d.quit_raises then .exn "quit failed" else .ok ()

/-- `_cleanup_driver`: skip when no driver was ever assigned
(`if self.driver:`), and catch and log any exception `quit()` raises,
so the cleanup itself never raises. -/
def cleanup_driver (driver : Option DriverHandle) : PyResult Unit :=
  match driver with
  | none => .ok ()
  | some d =>
    match driver_quit d with
    | .ok _ => .ok ()
    | .exn _ => .ok ()

/-! ## Query/result store and the HTTP layer (`app.py`, `models/database.py`) -/

/-- One row of the `query_logs` table (timestamp and requester address
elided; they play no role in the claims). -/
structure QueryLogEntry where
  id : Nat
  case_type : String
  case_number : String
  filing_year : String
deriving DecidableEq

/-- One row of the `case_data` table. The JSON-serialised columns are
kept structured; the raw-response audit column is not modelled. -/
structure CaseDataRecord where
  query_id : Nat
  case_type : String
  case_number : String
  filing_year : String
  parties : Option (List Party)
  filing_date : Option String
  next_hearing_date : Option String
  orders : Option (List CourtOrder)
  status : String
deriving DecidableEq

/-- The backing store: the two tables plus the next primary key the
database will assign to a query log row. -/
structure AppState where
  nextQueryId : Nat
  queries : List QueryLogEntry
  results : List CaseDataRecord

/-- What the `POST /search` route hands back to the client: a redirect
carrying a flash notice, or the rendered results page. -/
inductive SearchHttpOutcome where
  | redirectWithError
  | resultsPage (d : CaseData)

/-- The `POST /search` handler (`search_case` route in `app.py`):
reject when any form field is missing or empty (Python falsy check of
`all([...])`); otherwise log the query, run the scraper, and store one
`case_data` row — `status='success'` with the scraped payload when the
scraper returned data, `status='not_found'` otherwise. -/
def app_search_case (st : AppState) (env : ScrapeEnv)
    (case_type case_number filing_year : Option String) :
    AppState × SearchHttpOutcome :=
  match case_type, case_number, filing_year with
  | some ct, some cn, some fy =>
    if ct = "" || cn = "" || fy = "" then (st, .redirectWithError)
    else
      let qid := st.nextQueryId
      let qlog : QueryLogEntry :=
        { id := qid, case_type := ct, case_number := cn, filing_year := fy }
      let st1 : AppState :=
        { nextQueryId := qid + 1, queries := st.queries ++ [qlog],
          results := st.results }
      match (search_case env).1 with
      | some d =>
        let rec0 : CaseDataRecord :=
          { query_id := qid, case_type := ct, case_number := cn, filing_year := fy,
            parties := some d.parties, filing_date := d.filing_date,
            next_hearing_date := d.next_hearing_date, orders := some d.orders,
            status := "success" }
        ({ st1 with results := st1.results ++ [rec0] }, .resultsPage d)
      | none =>
        let rec0 : CaseDataRecord :=
          { query_id := qid, case_type := ct, case_number := cn, filing_year := fy,
            parties := none, filing_date := none, next_hearing_date := none,
            orders := none, status := "not_found" }
        ({ st1 with results := st1.results ++ [rec0] }, .redirectWithError)
  | _, _, _ => (st, .redirectWithError)

/-- Python `range(start, stop, -1)` for `start ≥ stop`, by fuel equal to
the number of elements. -/
def pyRangeStepNeg (start : Int) : Nat → List Int
  | 0 => []
  | n + 1 => start :: pyRangeStepNeg (start - 1) n

/-- Python `list(range(start, stop, -1))`. -/
def pyRangeDown (start stop : Int) : List Int :=
  pyRangeStepNeg start (start - stop).toNat

/-- The `GET /api/years` endpoint:
`list(range(current_year, current_year - 20, -1))`. -/
def get_years (current_year : Int) : List Int :=
  pyRangeDown current_year (current_year - 20)

/-! ## PDF handler (`utils/pdf_handler.py`) -/

/-- `os.path.basename`: the part of a path after its last slash. -/
def basenameL (cs : List Char) : List Char :=
  cs.foldl (fun acc c => if c = '/' then [] else acc ++ [c]) []

/-- Split a character list at the first occurrence of `sep`, returning
the parts before and after it, or `none` when `sep` does not occur. -/
def splitOnceAux (sep : List Char) : List Char → Option (List Char × List Char)
  | [] => none
  | c :: cs =>
    if List.isPrefixOf sep (c :: cs) then some ([], (c :: cs).drop sep.length)
    else
      match splitOnceAux sep cs with
      | some pq => some (c :: pq.1, pq.2)
      | none => none

/-- `urllib.parse.urlparse(u).path` for the URL shapes the handler
processes: with a scheme separator the path starts at the first slash
after the authority and stops at the query or fragment; without one the
whole string up to the query or fragment is the path. -/
def urlPath (u : String) : String :=
  match splitOnceAux "://".data u.data with
  | none => ⟨u.data.takeWhile (fun c => c != '?' && c != '#')⟩
  | some pq =>
    ⟨(pq.2.dropWhile (fun c => c != '/')).takeWhile (fun c => c != '?' && c != '#')⟩

/-- `os.path.splitext` on a bare filename: split off the extension at
the last dot, except that dots leading the name do not start an
extension. -/
def splitextL (cs : List Char) : List Char × List Char :=
  let lead := cs.takeWhile (fun c => c = '.')
  let rest := cs.dropWhile (fun c => c = '.')
  if rest.contains '.' then
    let revRest := rest.reverse
    let extRev := revRest.takeWhile (fun c => c != '.')
    (lead ++ (revRest.drop (extRev.length + 1)).reverse, '.' :: extRev.reverse)
  else (cs, [])

/-- `original_filename.lower().endswith('.pdf')`. -/
def lowerEndsWithPdf (s : List Char) : Bool :=
  List.isSuffixOf ".pdf".data (s.map Char.toLower)

/-- The f-string assembling the final filename,
`f"\x7bname\x7d_\x7btimestamp\x7d\x7bext\x7d"`. -/
def assembleFilename (stem ext : List Char) (now : String) : String :=
  ⟨stem ++ "_".data ++ now.data ++ ext⟩

/-- `PDFHandler._generate_filename(pdf_url)`: take the basename of the
URL path; when it is empty or has no dot, fall back to a stem derived
from the MD5 hex digest of the URL (the digest function is passed in as
`md5hex`); ensure a `.pdf` extension; insert the current timestamp
string before the extension. -/
def generate_filename (md5hex : String → String) (now : String) (pdf_url : String) :
    String :=
  let original0 := basenameL (urlPath pdf_url).data
  let original1 :=
    if original0.isEmpty || !original0.contains '.' then
      ("court_document_" ++ (md5hex pdf_url).take 8 ++ ".pdf").data
    else original0
  let original2 :=
    if !lowerEndsWithPdf original1 then original1 ++ ".pdf".data else original1
  let ne := splitextL original2
  assembleFilename ne.1 ne.2 now

/-- `pdf_url.startswith(('http://', 'https://'))`. -/
def startsWithHttp (u : String) : Bool :=
  List.isPrefixOf "http://".data u.data || List.isPrefixOf "https://".data u.data

/-- Observable actions of one `download_pdf` call. -/
inductive PdfEvent where
  | genFilename
  | existsCheck
  | netRequest
  | fileWrite
deriving DecidableEq

/-- The handler's download directory, `os.path.join('static', 'downloads')`. -/
def downloads_dir : String := "static/downloads"

/-- `PDFHandler.download_pdf(pdf_url)`: percent-decode (`unquote`,
passed in as `unq`), reject non-HTTP(S) URLs, generate the target
filename, return the existing file's path when it is already on disk,
otherwise fetch the URL (`net`, `none` modelling a request error caught
by the `except` clauses) and write the file.  Returns the result, the
updated set of files on disk, and the actions performed after the URL
check. -/
def download_pdf (unq md5hex : String → String) (net : String → Option Unit)
    (fs : List String) (now url : String) :
    Option String × List String × List PdfEvent :=
  let u := unq url
  if startsWithHttp u = false then (none, fs, [])
  else
    let filename := generate_filename md5hex now u
    let filepath := downloads_dir ++ "/" ++ filename
    if fs.contains filepath then
      (some filepath, fs, [.genFilename, .existsCheck])
    else
      match net u with
      | none => (none, fs, [.genFilename, .existsCheck, .netRequest])
      | some _ =>
        (some filepath, fs ++ [filepath],
         [.genFilename, .existsCheck, .netRequest, .fileWrite])

/-! ## Concrete sample inputs -/

/-- A parser standing for a `BeautifulSoup` call that fails. -/
def parseNone : String → Option Node := fun _ => none

/-- A document with no recognised regions. -/
def domEmpty : Node := .elem "html" [] [] []

/-- A parser that succeeds and yields `domEmpty`. -/
def parseEmptyDoc : String → Option Node := fun _ => some domEmpty

/-- Step outcomes of a run in which every browser action succeeds and
results are present. -/
def flagsAllOk : ScrapeFlags :=
  ⟨true, true, true, true, true, true, true, true, true, true, false⟩

/-- Step outcomes of a run in which the WebDriver fails to start. -/
def flagsSetupFail : ScrapeFlags :=
  ⟨false, true, true, true, true, true, true, true, true, true, false⟩

/-- Step outcomes of a run in which the site reports no results. -/
def flagsNoResults : ScrapeFlags :=
  ⟨true, true, true, true, true, true, true, true, true, true, true⟩

/-- A fully successful scrape environment. -/
def envAllOk : ScrapeEnv := ⟨flagsAllOk, parseEmptyDoc, "<html></html>"⟩

/-- An environment whose driver setup fails. -/
def envSetupFail : ScrapeEnv := ⟨flagsSetupFail, parseNone, ""⟩

/-- An environment in which the site's no-results marker appears. -/
def envNoResults : ScrapeEnv := ⟨flagsNoResults, parseNone, ""⟩

/-- An empty store whose next query row will get id 1. -/
def st0 : AppState := ⟨1, [], []⟩

/-- Percent-decoding on a string with no escapes. -/
def unqId : String → String := fun s => s

/-- A stand-in MD5 hex digest function. -/
def md5hexConst : String → String := fun _ => "a1b2c3d4e5f6a7b8"

/-- A network that always delivers a body. -/
def netOk : String → Option Unit := fun _ => some ()

/-- The specification's example PDF URL. -/
def samplePdfUrl : String := "http://example.com/document.pdf"

/-! ## Helper lemmas -/

/-- The extraction step is reached exactly when every browser step
succeeded and the no-results marker is absent. -/
theorem searchFlow_extracting_iff (f : ScrapeFlags) :
    (searchFlow f).1 = ExitKind.extracting ↔
      f.setup_ok = true ∧ f.navigate_ok = true ∧ f.waitForm_ok = true ∧
      f.selectCaseType_ok = true ∧ f.fillCaseNumber_ok = true ∧
      f.fillFilingYear_ok = true ∧ f.findCaptcha_ok = true ∧ f.submit_ok = true ∧
      f.waitResults_ok = true ∧ f.no_results_present = false := by
  obtain ⟨a, b, c, d, e, g, h, i, j, k, l⟩ := f
  revert a b c d e g h i j k l
  decide

/-- The step trace of one call, teardown included, never repeats a step. -/
theorem searchFlow_trace_nodup (f : ScrapeFlags) :
    ((searchFlow f).2 ++ [Step.cleanup]).Nodup := by
  obtain ⟨a, b, c, d, e, g, h, i, j, k, l⟩ := f
  revert a b c d e g h i j k l
  decide

/-- The teardown step never occurs inside the `try`-body trace. -/
theorem cleanup_not_in_searchFlow (f : ScrapeFlags) :
    Step.cleanup ∉ (searchFlow f).2 := by
  obtain ⟨a, b, c, d, e, g, h, i, j, k, l⟩ := f
  revert a b c d e g h i j k l
  decide

/-! ## Claim theorems -/

/-- Claim C1: for every call to `search_case`, a driver-setup failure
returns `None` with no further step attempted; a failure at any
subsequent step (element not found, wait timeout, parse failure)
returns `None`; the no-results marker returns `None`; no step is ever
retried within a call; and otherwise the call returns exactly what
`_extract_case_data` produced. -/
theorem search_case_single_attempt (env : ScrapeEnv) :
    (env.flags.setup_ok = false →
      search_case env = (none, [Step.setup, Step.cleanup])) ∧
    ((env.flags.navigate_ok = false ∨ env.flags.waitForm_ok = false ∨
      env.flags.selectCaseType_ok = false ∨ env.flags.fillCaseNumber_ok = false ∨
      env.flags.fillFilingYear_ok = false ∨ env.flags.findCaptcha_ok = false ∨
      env.flags.submit_ok = false ∨ env.flags.waitResults_ok = false ∨
      extract_case_data env.parse env.page_source = none) →
      (search_case env).1 = none) ∧
    (env.flags.no_results_present = true → (search_case env).1 = none) ∧
    (search_case env).2.Nodup ∧
    (env.flags.setup_ok = true → env.flags.navigate_ok = true →
     env.flags.waitForm_ok = true → env.flags.selectCaseType_ok = true →
     env.flags.fillCaseNumber_ok = true → env.flags.fillFilingYear_ok = true →
     env.flags.findCaptcha_ok = true → env.flags.submit_ok = true →
     env.flags.waitResults_ok = true → env.flags.no_results_present = false →
     (search_case env).1 = extract_case_data env.parse env.page_source) := by
  refine ⟨?_, ?_, ?_, ?_, ?_⟩
  · intro h
    simp [search_case, searchFlow, h]
  · intro h
    show (match (searchFlow env.flags).1 with
      | ExitKind.extracting => extract_case_data env.parse env.page_source
      | _ => none) = none
    cases hk : (searchFlow env.flags).1 with
    | failed => rfl
    | notFound => rfl
    | extracting =>
      obtain ⟨h1, h2, h3, h4, h5, h6, h7, h8, h9, h10⟩ :=
        (searchFlow_extracting_iff env.flags).mp hk
      rcases h with h | h | h | h | h | h | h | h | h
      · cases h.symm.trans h2
      · cases h.symm.trans h3
      · cases h.symm.trans h4
      · cases h.symm.trans h5
      · cases h.symm.trans h6
      · cases h.symm.trans h7
      · cases h.symm.trans h8
      · cases h.symm.trans h9
      · exact h
  · intro h
    show (match (searchFlow env.flags).1 with
      | ExitKind.extracting => extract_case_data env.parse env.page_source
      | _ => none) = none
    cases hk : (searchFlow env.flags).1 with
    | failed => rfl
    | notFound => rfl
    | extracting =>
      obtain ⟨h1, h2, h3, h4, h5, h6, h7, h8, h9, h10⟩ :=
        (searchFlow_extracting_iff env.flags).mp hk
      cases h.symm.trans h10
  · exact searchFlow_trace_nodup env.flags
  · intro h1 h2 h3 h4 h5 h6 h7 h8 h9 h10
    show (match (searchFlow env.flags).1 with
      | ExitKind.extracting => extract_case_data env.parse env.page_source
      | _ => none) = extract_case_data env.parse env.page_source
    rw [(searchFlow_extracting_iff env.flags).mpr
      ⟨h1, h2, h3, h4, h5, h6, h7, h8, h9, h10⟩]

/-- Witness for C1 at a concrete environment whose driver setup fails. -/
theorem search_case_single_attempt_witness :
    search_case envSetupFail = (none, [Step.setup, Step.cleanup]) :=
  (search_case_single_attempt envSetupFail).1 rfl

/-- Claim C2: on every exit path of `search_case` the driver cleanup is
invoked (it is the last step of the trace and occurs exactly once), and
`_cleanup_driver` tolerates a never-opened or already-closed driver
without raising. -/
theorem search_case_always_cleanup (env : ScrapeEnv) (d : Option DriverHandle) :
    (search_case env).2.getLast? = some Step.cleanup ∧
    (search_case env).2.count Step.cleanup = 1 ∧
    cleanup_driver d = PyResult.ok () := by
  refine ⟨?_, ?_, ?_⟩
  · show ((searchFlow env.flags).2 ++ [Step.cleanup]).getLast? = some Step.cleanup
    exact List.getLast?_concat _
  · show ((searchFlow env.flags).2 ++ [Step.cleanup]).count Step.cleanup = 1
    rw [List.count_append, List.count_eq_zero.mpr (cleanup_not_in_searchFlow env.flags)]
    rfl
  · cases d with
    | none => rfl
    | some dh =>
      cases hb : dh.quit_raises <;> simp [cleanup_driver, driver_quit, hb]

/-- Claim C5: any input whose parse fails makes the extractor return
`None` rather than raising or producing a record. -/
theorem extract_none_on_parse_failure (parse : String → Option Node) (src : String)
    (h : parse src = none) : extract_case_data parse src = none := by
  simp [extract_case_data, h]

/-- Witness for C5 at a concrete failing parser and input. -/
theorem extract_none_on_parse_failure_witness :
    extract_case_data parseNone "<<<not markup" = none :=
  extract_none_on_parse_failure parseNone "<<<not markup" rfl

/-- Claim C6: `validate_captcha` accepts exactly the non-empty,
purely alphanumeric strings of length 4 to 8; `None` and every other
string are rejected. -/
theorem validate_captcha_iff (captcha_text : Option String) :
    validate_captcha captcha_text = true ↔
      ∃ s, captcha_text = some s ∧ s ≠ "" ∧ s.data.all Char.isAlphanum = true ∧
        4 ≤ s.length ∧ s.length ≤ 8 := by
  cases captcha_text with
  | none => simp [validate_captcha]
  | some s =>
    have hdata : s ≠ "" ↔ s.data ≠ [] := by
      constructor
      · intro h hcon
        exact h (String.ext hcon)
      · intro h hcon
        subst hcon
        exact h rfl
    by_cases hs : s = ""
    · subst hs
      simp [validate_captcha]
    · have halnum : py_isalnum s = true ↔ s.data.all Char.isAlphanum = true := by
        simp only [py_isalnum, Bool.and_eq_true, Bool.not_eq_true',
          List.isEmpty_eq_false]
        exact and_iff_right (hdata.mp hs)
      simp only [validate_captcha, if_neg hs, Option.some.injEq, exists_eq_left']
      constructor
      · intro h
        by_cases hc : (!py_isalnum s || decide (s.length < 4) || decide (s.length > 8)) = true
        · rw [if_pos hc] at h
          cases h
        · simp only [Bool.or_eq_true, not_or, Bool.not_eq_true', decide_eq_true_eq,
            Bool.not_eq_false] at hc
          obtain ⟨⟨ha, h4⟩, h8⟩ := hc
          exact ⟨hs, halnum.mp ha, by omega, by omega⟩
      · rintro ⟨-, ha, h4, h8⟩
        rw [if_neg]
        simp only [Bool.or_eq_true, not_or, Bool.not_eq_true', decide_eq_true_eq,
          Bool.not_eq_false]
        exact ⟨⟨halnum.mpr ha, by omega⟩, by omega⟩

/-- Length of the descending range. -/
theorem pyRangeStepNeg_length (s : Int) (n : Nat) :
    (pyRangeStepNeg s n).length = n := by
  induction n generalizing s with
  | zero => rfl
  | succ m ih => simp [pyRangeStepNeg, ih]

/-- The descending range is strictly decreasing. -/
theorem pyRangeStepNeg_chain (s : Int) (n : Nat) :
    List.Chain' (fun a b => a > b) (pyRangeStepNeg s n) := by
  induction n generalizing s with
  | zero => simp [pyRangeStepNeg]
  | succ m ih =>
    rw [pyRangeStepNeg, List.chain'_cons']
    refine ⟨?_, ih (s - 1)⟩
    intro y hy
    cases m with
    | zero => cases hy
    | succ k =>
      rw [pyRangeStepNeg] at hy
      simp only [List.head?_cons, Option.mem_def, Option.some.injEq] at hy
      omega

/-- Claim C9: for every current year, `GET /api/years` returns exactly
20 years, in descending order, with the current year first. -/
theorem api_years_twenty_descending (current_year : Int) :
    (get_years current_year).length = 20 ∧
    (get_years current_year).head? = some current_year ∧
    List.Chain' (fun a b => a > b) (get_years current_year) := by
  have h20 : (current_year - (current_year - 20)).toNat = 20 := by omega
  refine ⟨?_, ?_, ?_⟩
  · rw [get_years, pyRangeDown, h20, pyRangeStepNeg_length]
  · rw [get_years, pyRangeDown, h20]
    rfl
  · rw [get_years, pyRangeDown]
    exact pyRangeStepNeg_chain _ _

/-- Claim C10: a URL that, after percent-decoding, does not start with
an HTTP(S) scheme makes `download_pdf` return `None` with no filename
generated, no existence check, no network request and no file written. -/
theorem download_pdf_rejects_non_http (unq md5hex : String → String)
    (net : String → Option Unit) (fs : List String) (now url : String)
    (h : startsWithHttp (unq url) = false) :
    download_pdf unq md5hex net fs now url = (none, fs, []) := by
  simp [download_pdf, h]

/-- Witness for C10 at a concrete FTP URL. -/
theorem download_pdf_rejects_non_http_witness :
    download_pdf unqId md5hexConst netOk [] "20250101_000000"
      "ftp://files.example.com/doc.pdf" = (none, [], []) :=
  download_pdf_rejects_non_http unqId md5hexConst netOk [] "20250101_000000"
    "ftp://files.example.com/doc.pdf" (by decide)

/-- Counterexample to claim C7: requesting the same PDF URL a second
time at a later timestamp derives a different filename, misses the
existing file, performs the network request again and writes a second
file, instead of returning the existing path. -/
theorem download_pdf_redownloads_counterexample :
    ((download_pdf unqId md5hexConst netOk
        (download_pdf unqId md5hexConst netOk [] "20250101_000000" samplePdfUrl).2.1
        "20250101_000001" samplePdfUrl).2.2 =
      [PdfEvent.genFilename, PdfEvent.existsCheck, PdfEvent.netRequest,
       PdfEvent.fileWrite]) ∧
    (download_pdf unqId md5hexConst netOk
        (download_pdf unqId md5hexConst netOk [] "20250101_000000" samplePdfUrl).2.1
        "20250101_000001" samplePdfUrl).1 ≠
      (download_pdf unqId md5hexConst netOk [] "20250101_000000" samplePdfUrl).1 := by
  exact ⟨by decide, by decide⟩

/-- Amended claim C7: when the second call derives the same filename —
that is, when it runs with the same timestamp string — it finds the
file written (or found) by the first call on disk and returns the
existing path with no network request and no write. -/
theorem download_pdf_idempotent_same_timestamp (unq md5hex : String → String)
    (net : String → Option Unit) (fs fs1 : List String) (now url p : String)
    (ev : List PdfEvent)
    (h : download_pdf unq md5hex net fs now url = (some p, fs1, ev)) :
    download_pdf unq md5hex net fs1 now url =
      (some p, fs1, [PdfEvent.genFilename, PdfEvent.existsCheck]) := by
  simp only [download_pdf] at h ⊢
  cases hhttp : startsWithHttp (unq url) with
  | false => simp [hhttp] at h
  | true =>
    simp only [hhttp, Bool.true_eq_false, if_false] at h ⊢
    by_cases hex : fs.contains (downloads_dir ++ "/" ++
        generate_filename md5hex now (unq url)) = true
    · rw [if_pos hex] at h
      simp only [Prod.mk.injEq, Option.some.injEq] at h
      obtain ⟨hp, hfs, -⟩ := h
      subst hp
      subst hfs
      rw [if_pos hex]
    · rw [if_neg hex] at h
      cases hnet : net (unq url) with
      | none => simp [hnet] at h
      | some u =>
        simp only [hnet, Prod.mk.injEq, Option.some.injEq] at h
        obtain ⟨hp, hfs, -⟩ := h
        subst hp
        subst hfs
        rw [if_pos (List.elem_iff.mpr
          (List.mem_append_right _ (List.mem_singleton_self _)))]

/-- Witness for the amended C7: a concrete same-timestamp repeat call
returns the existing path without downloading. -/
theorem download_pdf_idempotent_same_timestamp_witness :
    download_pdf unqId md5hexConst netOk
        ["static/downloads/document_20250101_000000.pdf"] "20250101_000000"
        samplePdfUrl =
      (some "static/downloads/document_20250101_000000.pdf",
       ["static/downloads/document_20250101_000000.pdf"],
       [PdfEvent.genFilename, PdfEvent.existsCheck]) :=
  download_pdf_idempotent_same_timestamp unqId md5hexConst netOk []
    ["static/downloads/document_20250101_000000.pdf"] "20250101_000000" samplePdfUrl
    "static/downloads/document_20250101_000000.pdf"
    [PdfEvent.genFilename, PdfEvent.existsCheck, PdfEvent.netRequest,
     PdfEvent.fileWrite] (by decide)

/-- Counterexample to claim C3: a search whose scraping step fails
(driver setup failure) stores a record with status `not_found` — the
very same status stored when the site reports no results — so no
`error`-status record distinguishing step failure is ever stored. -/
theorem app_search_failure_status_counterexample :
    ((app_search_case st0 envSetupFail (some "Civil Appeal") (some "1234")
        (some "2023")).1.results.map (fun r => r.status) = ["not_found"]) ∧
    ((app_search_case st0 envNoResults (some "Civil Appeal") (some "1234")
        (some "2023")).1.results.map (fun r => r.status) = ["not_found"]) ∧
    ("not_found" : String) ≠ "error" := by
  exact ⟨rfl, rfl, by decide⟩

/-- Amended claim C3: after every `POST /search` with all fields
present runs to completion, exactly one result record exists for the
logged query; it carries status `success` when the scraper returned
data and status `not_found` in every other case — step failures and
site-reported no-results store the same `not_found` tag — so every
failed search still produces a stored record with a status tag. -/
theorem app_search_one_record_per_query (st : AppState) (env : ScrapeEnv)
    (ct cn fy : String) (h1 : ct ≠ "") (h2 : cn ≠ "") (h3 : fy ≠ "")
    (hfresh : ∀ r ∈ st.results, r.query_id ≠ st.nextQueryId) :
    (((app_search_case st env (some ct) (some cn) (some fy)).1.results.filter
        (fun r => r.query_id = st.nextQueryId)).length = 1) ∧
    (∀ r, r ∈ (app_search_case st env (some ct) (some cn) (some fy)).1.results →
      r.query_id = st.nextQueryId →
      r.status = if (search_case env).1.isSome then "success" else "not_found") := by
  have hcond : (ct = "" || cn = "" || fy = "") = false := by
    simp [h1, h2, h3]
  have hfilter : st.results.filter
      (fun r => decide (r.query_id = st.nextQueryId)) = [] := by
    rw [List.filter_eq_nil_iff]
    intro r hr
    simp [hfresh r hr]
  simp only [app_search_case, hcond, Bool.false_eq_true, if_false]
  cases hs : (search_case env).1 with
  | some d =>
    refine ⟨?_, ?_⟩
    · simp [List.filter_append, hfilter]
    · intro r hr hq
      rcases List.mem_append.mp hr with hl | hrr
      · exact absurd hq (hfresh r hl)
      · rw [List.mem_singleton.mp hrr]
        simp
  | none =>
    refine ⟨?_, ?_⟩
    · simp [List.filter_append, hfilter]
    · intro r hr hq
      rcases List.mem_append.mp hr with hl | hrr
      · exact absurd hq (hfresh r hl)
      · rw [List.mem_singleton.mp hrr]
        simp

/-- Witness for the amended C3: a concrete successful search against an
empty store logs one query and stores exactly one `success` record. -/
theorem app_search_one_record_per_query_witness :
    (((app_search_case st0 envAllOk (some "Writ Petition (Civil)") (some "1234")
        (some "2023")).1.results.filter
        (fun r => r.query_id = st0.nextQueryId)).length = 1) :=
  (app_search_one_record_per_query st0 envAllOk "Writ Petition (Civil)" "1234" "2023"
    (by decide) (by decide) (by decide) (by intro r hr; cases hr)).1

/-- Claim C4: the extractor treats the parties, dates and orders
regions as independent and optional — a missing region leaves its field
empty while the other regions are extracted from their own markers
alone; a party entry is included exactly when it has both a type and a
name sub-span; an order entry is included exactly when it has both a
date and a title, its link defaulting to `none` when absent. -/
theorem extractor_regions_optional_independent (dom d1 d2 : Node) :
    (findFirst partiesMarker dom = none → (extractFromDom dom).parties = []) ∧
    (findFirst datesMarker dom = none →
      (extractFromDom dom).filing_date = none ∧
      (extractFromDom dom).next_hearing_date = none) ∧
    (findFirst ordersMarker dom = none → (extractFromDom dom).orders = []) ∧
    (findFirst partiesMarker d1 = findFirst partiesMarker d2 →
      (extractFromDom d1).parties = (extractFromDom d2).parties) ∧
    (findFirst datesMarker d1 = findFirst datesMarker d2 →
      (extractFromDom d1).filing_date = (extractFromDom d2).filing_date ∧
      (extractFromDom d1).next_hearing_date = (extractFromDom d2).next_hearing_date) ∧
    (findFirst ordersMarker d1 = findFirst ordersMarker d2 →
      (extractFromDom d1).orders = (extractFromDom d2).orders) ∧
    (∀ pr : Party, pr ∈ (extractFromDom dom).parties ↔
      ∃ sec, findFirst partiesMarker dom = some sec ∧
        ∃ el ∈ findAllNode (isElemWithClass "div" "party") sec,
          ∃ pt pn, findFirst (isElemWithClass "span" "party-type") el = some pt ∧
            findFirst (isElemWithClass "span" "party-name") el = some pn ∧
            pr = { type := pyStrip (nodeText pt), name := pyStrip (nodeText pn) }) ∧
    (∀ od : CourtOrder, od ∈ (extractFromDom dom).orders ↔
      ∃ sec, findFirst ordersMarker dom = some sec ∧
        ∃ el ∈ findAllNode (isElemWithClass "div" "order-item") sec,
          ∃ dt tt, findFirst (isElemWithClass "span" "order-date") el = some dt ∧
            findFirst (isElemWithClass "span" "order-title") el = some tt ∧
            od = { date := pyStrip (nodeText dt), title := pyStrip (nodeText tt),
                   url := (findFirst (isElemWithClass "a" "order-link") el).bind
                            (getAttr "href") }) := by
  refine ⟨?_, ?_, ?_, ?_, ?_, ?_, ?_, ?_⟩
  · intro h
    simp [extractFromDom, h]
  · intro h
    simp [extractFromDom, h]
  · intro h
    simp [extractFromDom, h]
  · intro h
    simp only [extractFromDom]
    rw [h]
  · intro h
    simp only [extractFromDom]
    rw [h]
    exact ⟨rfl, rfl⟩
  · intro h
    simp only [extractFromDom]
    rw [h]
  · intro pr
    cases hsec : findFirst partiesMarker dom with
    | none => simp [extractFromDom, hsec]
    | some sec =>
      simp only [extractFromDom, hsec, List.mem_filterMap, Option.some.injEq]
      constructor
      · rintro ⟨el, hel, hm⟩
        cases h1 : findFirst (isElemWithClass "span" "party-type") el with
        | none =>
          rw [h1] at hm
          cases hm
        | some pt =>
          cases h2 : findFirst (isElemWithClass "span" "party-name") el with
          | none =>
            rw [h1, h2] at hm
            cases hm
          | some pn =>
            rw [h1, h2] at hm
            exact ⟨sec, rfl, el, hel, pt, pn, h1, h2, (Option.some.inj hm).symm⟩
      · rintro ⟨sec2, hsec2, el, hel, pt, pn, h1, h2, rfl⟩
        obtain rfl : sec = sec2 := hsec2
        refine ⟨el, hel, ?_⟩
        rw [h1, h2]
  · intro od
    cases hsec : findFirst ordersMarker dom with
    | none => simp [extractFromDom, hsec]
    | some sec =>
      simp only [extractFromDom, hsec, List.mem_filterMap, Option.some.injEq]
      constructor
      · rintro ⟨el, hel, hm⟩
        cases h1 : findFirst (isElemWithClass "span" "order-date") el with
        | none =>
          rw [h1] at hm
          cases hm
        | some dt =>
          cases h2 : findFirst (isElemWithClass "span" "order-title") el with
          | none =>
            rw [h1, h2] at hm
            cases hm
          | some tt =>
            rw [h1, h2] at hm
            exact ⟨sec, rfl, el, hel, dt, tt, h1, h2, (Option.some.inj hm).symm⟩
      · rintro ⟨sec2, hsec2, el, hel, dt, tt, h1, h2, rfl⟩
        obtain rfl : sec = sec2 := hsec2
        refine ⟨el, hel, ?_⟩
        rw [h1, h2]

/-- Witness for C4 at a document with no recognised regions. -/
theorem extractor_regions_optional_independent_witness :
    (extractFromDom domEmpty).parties = [] ∧ (extractFromDom domEmpty).orders = [] :=
  ⟨(extractor_regions_optional_independent domEmpty domEmpty domEmpty).1 rfl,
   (extractor_regions_optional_independent domEmpty domEmpty domEmpty).2.2.1 rfl⟩

/-- Anything ending in the four characters `.pdf` passes the
case-insensitive extension check. -/
theorem lowerEndsWithPdf_append (l : List Char) :
    lowerEndsWithPdf (l ++ ".pdf".data) = true := by
  unfold lowerEndsWithPdf
  rw [List.map_append]
  have h : List.map Char.toLower ".pdf".data = ".pdf".data := rfl
  rw [h]
  exact List.isSuffixOf_iff_suffix.mpr ⟨_, rfl⟩

/-- Splitting the extension off `name.pdf` when the name does not start
with a dot yields the name and `.pdf`. -/
theorem splitextL_cons_pdf (c : Char) (cs : List Char) (hc : ¬(c = '.')) :
    splitextL ((c :: cs) ++ ".pdf".data) = (c :: cs, ".pdf".data) := by
  unfold splitextL
  have htw : ((c :: cs) ++ ".pdf".data).takeWhile (fun x => decide (x = '.')) = [] := by
    simp [List.takeWhile_cons, hc]
  have hdw : ((c :: cs) ++ ".pdf".data).dropWhile (fun x => decide (x = '.')) =
      (c :: cs) ++ ".pdf".data := by
    simp [List.dropWhile_cons, hc]
  have hcont : ((c :: cs) ++ ".pdf".data).contains '.' = true :=
    List.elem_iff.mpr (List.mem_append_right _ (by decide))
  rw [htw, hdw, if_pos hcont, List.reverse_append]
  dsimp only
  have h1 : (".pdf".data.reverse ++ (c :: cs).reverse).takeWhile
      (fun x => x != '.') = ['f', 'd', 'p'] := rfl
  rw [h1]
  have h2 : (".pdf".data.reverse ++ (c :: cs).reverse).drop
      (['f', 'd', 'p'].length + 1) = (c :: cs).reverse := rfl
  rw [h2, List.reverse_reverse]
  rfl

/-- When the URL basename is empty or has no dot, `_generate_filename`
produces the MD5-derived fallback stem with a `.pdf` extension. -/
theorem generate_filename_fallback (md5hex : String → String) (now url : String)
    (hfb : ((basenameL (urlPath url).data).isEmpty ||
      !(basenameL (urlPath url).data).contains '.') = true) :
    generate_filename md5hex now url =
      assembleFilename ("court_document_".data ++ ((md5hex url).take 8).data)
        ".pdf".data now := by
  unfold generate_filename
  dsimp only
  rw [if_pos hfb]
  have hd : ("court_document_" ++ (md5hex url).take 8 ++ ".pdf").data =
      ("court_document_".data ++ ((md5hex url).take 8).data) ++ ".pdf".data := by
    rw [String.data_append, String.data_append]
  rw [hd]
  rw [if_neg (by rw [lowerEndsWithPdf_append]; simp)]
  have hshape : "court_document_".data ++ ((md5hex url).take 8).data =
      'c' :: ("ourt_document_".data ++ ((md5hex url).take 8).data) := rfl
  rw [hshape, splitextL_cons_pdf 'c' _ (by decide)]

/-- The timestamp inserted before the extension determines the final
filename: equal filenames force equal timestamps. -/
theorem assembleFilename_timestamp_inj (stem ext : List Char) (t1 t2 : String)
    (h : assembleFilename stem ext t1 = assembleFilename stem ext t2) : t1 = t2 := by
  have hd : ((stem ++ "_".data) ++ t1.data) ++ ext =
      ((stem ++ "_".data) ++ t2.data) ++ ext := congrArg String.data h
  exact String.ext (List.append_cancel_left (List.append_cancel_right hd))

/-- Claim C8: filename generation from a PDF URL — a URL ending in
`document.pdf` yields a filename containing `document` and ending in
`.pdf`; a URL with no extension still yields a `.pdf` filename; a URL
with no usable path component yields a filename starting with the fixed
fallback stem and ending in `.pdf`; and two calls with the same URL at
different timestamps yield different filenames. -/
theorem pdf_filename_generation (md5hex : String → String) (t t1 t2 url : String) :
    ("document".data <:+:
        (generate_filename md5hex t "http://example.com/document.pdf").data ∧
      ".pdf".data <:+
        (generate_filename md5hex t "http://example.com/document.pdf").data) ∧
    ".pdf".data <:+ (generate_filename md5hex t "http://example.com/document").data ∧
    ("court_document_".data <+:
        (generate_filename md5hex t "http://example.com/").data ∧
      ".pdf".data <:+ (generate_filename md5hex t "http://example.com/").data) ∧
    (t1 ≠ t2 → generate_filename md5hex t1 url ≠ generate_filename md5hex t2 url) := by
  have h1 : generate_filename md5hex t "http://example.com/document.pdf" =
      assembleFilename "document".data ".pdf".data t := rfl
  have h2 : generate_filename md5hex t "http://example.com/document" =
      assembleFilename ("court_document_".data ++
        ((md5hex "http://example.com/document").take 8).data) ".pdf".data t :=
    generate_filename_fallback md5hex t "http://example.com/document" (by decide)
  have h3 : generate_filename md5hex t "http://example.com/" =
      assembleFilename ("court_document_".data ++
        ((md5hex "http://example.com/").take 8).data) ".pdf".data t :=
    generate_filename_fallback md5hex t "http://example.com/" (by decide)
  refine ⟨⟨?_, ?_⟩, ?_, ⟨?_, ?_⟩, ?_⟩
  · rw [h1]
    exact ⟨[], "_".data ++ t.data ++ ".pdf".data,
      by simp [assembleFilename, List.append_assoc]⟩
  · rw [h1]
    exact ⟨_, rfl⟩
  · rw [h2]
    exact ⟨_, rfl⟩
  · rw [h3]
    exact ⟨((md5hex "http://example.com/").take 8).data ++ "_".data ++ t.data ++
      ".pdf".data, by simp [assembleFilename, List.append_assoc]⟩
  · rw [h3]
    exact ⟨_, rfl⟩
  · intro hne heq
    exact hne (assembleFilename_timestamp_inj _ _ t1 t2 heq)

/-- Witness for C8 at concrete timestamps and digest function. -/
theorem pdf_filename_generation_witness :
    ".pdf".data <:+
      (generate_filename md5hexConst "20250101_000000"
        "http://example.com/document.pdf").data ∧
    generate_filename md5hexConst "20250101_000000" samplePdfUrl ≠
      generate_filename md5hexConst "20250101_000001" samplePdfUrl :=
  ⟨(pdf_filename_generation md5hexConst "20250101_000000" "20250101_000000"
      "20250101_000001" samplePdfUrl).1.2,
   (pdf_filename_generation md5hexConst "20250101_000000" "20250101_000000"
      "20250101_000001" samplePdfUrl).2.2.2 (by decide)⟩

/-- Witness for C2 at a concrete environment and a never-opened driver. -/
theorem search_case_always_cleanup_witness :
    (search_case envAllOk).2.getLast? = some Step.cleanup ∧
    cleanup_driver none = PyResult.ok () :=
  ⟨(search_case_always_cleanup envAllOk none).1,
   (search_case_always_cleanup envAllOk none).2.2⟩

/-- Witness for C6 at the specification's accepted example. -/
theorem validate_captcha_iff_witness :
    validate_captcha (some "ABC123") = true :=
  (validate_captcha_iff (some "ABC123")).mpr
    ⟨"ABC123", rfl, by decide, by decide, by decide, by decide⟩

/-- Witness for C9 at the year 2025. -/
theorem api_years_twenty_descending_witness :
    (get_years 2025).length = 20 :=
  (api_years_twenty_descending 2025).1
